import Mathlib

/-!
Shallow embedding of the Producer agent core from
`src/lib/apis/producers.js` (class `Producer`), together with proofs of
the specified properties of its job lifecycle, reconciliation, dispatch
grouping, error classification and accessors.

JavaScript conventions used throughout the embedding:
* absent string fields are encoded as `""` (both `undefined` and `""` are
  falsy for the truthiness checks the source performs on strings);
* optional non-string fields are `Option`;
* a JS object used as a dictionary is an association list preserving
  insertion order (the iteration order of non-numeric string keys);
* `Date.now()` and `uuid.v4()` are passed in as explicit parameters
  (`now`, `freshJobId`).
-/

namespace BitSpider.Producer

/-- JSON values, used for the opaque `dataset` payload and for reasons that
are plain objects (serialized with `JSON.stringify`). -/
inductive JsonVal where
  | null : JsonVal
  | bool (b : Bool) : JsonVal
  | num (n : Int) : JsonVal
  | str (s : String) : JsonVal
  | arr (xs : List JsonVal) : JsonVal
  | obj (fields : List (String × JsonVal)) : JsonVal
deriving Repr, BEq

mutual

/-- `JSON.stringify` for `JsonVal` (no spaces, double-quoted strings). -/
def JsonVal.stringify : JsonVal → String
  | .null => "null"
  | .bool true => "true"
  | .bool false => "false"
  | .num n => toString n
  | .str s => "\"" ++ s ++ "\""
  | .arr xs => "[" ++ JsonVal.stringifyList xs ++ "]"
  | .obj fs => "\x7b" ++ JsonVal.stringifyFields fs ++ "\x7d"

def JsonVal.stringifyList : List JsonVal → String
  | [] => ""
  | [x] => JsonVal.stringify x
  | x :: y :: rest => JsonVal.stringify x ++ "," ++ JsonVal.stringifyList (y :: rest)

def JsonVal.stringifyFields : List (String × JsonVal) → String
  | [] => ""
  | [(k, v)] => "\"" ++ k ++ "\":" ++ JsonVal.stringify v
  | (k, v) :: y :: rest =>
      "\"" ++ k ++ "\":" ++ JsonVal.stringify v ++ "," ++ JsonVal.stringifyFields (y :: rest)

end

/-- JS truthiness for a JSON value (`null`, `false`, `0`, `""` are falsy). -/
def JsonVal.truthy : JsonVal → Bool
  | .null => false
  | .bool b => b
  | .num n => n != 0
  | .str s => s != ""
  | .arr _ => true
  | .obj _ => true

/-- Truthiness of an optional JSON field (`_.get` returning `undefined` is
falsy). -/
def jsOptTruthy : Option JsonVal → Bool
  | none => false
  | some v => v.truthy

/-- The `reason` argument of `setIntelligenceState`: either an `Error`
instance, a plain object, or a primitive. -/
inductive JsReason where
  | jsError (message : String) : JsReason
  | jsObject (v : JsonVal) : JsReason
  | jsString (s : String) : JsReason
  | jsNumber (n : Int) : JsReason
  | jsBool (b : Bool) : JsReason
deriving Repr, BEq

/-- JS truthiness of a reason value (the source guards serialization with
`if (reason)`). -/
def JsReason.truthy : JsReason → Bool
  | .jsError _ => true
  | .jsObject _ => true
  | .jsString s => s != ""
  | .jsNumber n => n != 0
  | .jsBool b => b

/-- Serialization of a reason, as in the body of `setIntelligenceState`:
an `Error` contributes its `message`, a non-`Error` object its
`JSON.stringify`, anything else its `_.toString` coercion. -/
def serializeReason : JsReason → String
  | .jsError m => m
  | .jsObject v => v.stringify
  | .jsString s => s
  | .jsNumber n => toString n
  | .jsBool b => if b then "true" else "false"

/-- `soi.callback` of an intelligence (`""` encodes an absent field). -/
structure SoiCallback where
  method : String := ""
  path : String := ""
deriving Repr, BEq

/-- The `soi` descriptor of an intelligence. -/
structure Soi where
  baseURL : String := ""
  callback : SoiCallback := {}
  apiKey : String := ""
deriving Repr, BEq

/-- The `system` sub-object of an intelligence. `state = ""` encodes an
unset state; `producerEndedAt` is `system.producer.endedAt`. -/
structure IntelligenceSystem where
  state : String := ""
  failuresReason : Option String := none
  producerEndedAt : Option Nat := none
deriving Repr, BEq

/-- One unit of work; fields the core observes. `globalId = ""` encodes a
missing id (falsy under the source's `_.get(..., "globalId")` checks). -/
structure Intelligence where
  globalId : String := ""
  soi : Soi := {}
  system : IntelligenceSystem := {}
  dataset : Option JsonVal := none
deriving Repr, BEq

/-- `_.toUpper` on a string (ASCII case mapping, character by
character). -/
def jsToUpper (s : String) : String := ⟨s.data.map Char.toUpper⟩

/-- `_.toLower` on a string (ASCII case mapping, character by
character). -/
def jsToLower (s : String) : String := ⟨s.data.map Char.toLower⟩

/-- Truthiness of `system.producer.endedAt` (a JS number field: `0` and
`undefined` are falsy). -/
def endedAtTruthy : Option Nat → Bool
  | none => false
  | some v => v != 0

/-- `setIntelligenceState(intelligence, state, reason)` from the source:
uppercases the state, touches `system.producer.endedAt` only when it is
already truthy, and serializes a truthy reason into
`system.failuresReason`. `now` stands for `Date.now()`. -/
def setIntelligenceState (now : Nat) (intelligence : Intelligence) (state : String)
    (reason : Option JsReason) : Intelligence :=
  let intelligence :=
    { intelligence with system := { intelligence.system with state := jsToUpper state } }
  let intelligence :=
    if endedAtTruthy intelligence.system.producerEndedAt then
      { intelligence with system := { intelligence.system with producerEndedAt := some now } }
    else intelligence
  match reason with
  | some r =>
      if r.truthy then
        { intelligence with
            system := { intelligence.system with failuresReason := some (serializeReason r) } }
      else intelligence
  | none => intelligence

/-- The `__runningJob` record of a `Producer`. `jobTimeoutHandler` records
whether the one-shot timeout timer is armed; the dictionary is the JS
object `collectedIntelligencesDict` as an insertion-ordered association
list. -/
structure RunningJob where
  totalIntelligences : List Intelligence := []
  collectedIntelligencesDict : List (String × Intelligence) := []
  collectedIntelligencesNumber : Nat := 0
  jobId : Option String := none
  startTime : Nat := 0
  jobTimeout : Bool := false
  endingCollectIntelligencesJob : Bool := false
  jobTimeoutHandler : Bool := false
  lockJob : Bool := false
deriving Repr, BEq

/-- Assignment `dict[key] = value` on a JS object: replaces the value in
place when the key exists, otherwise appends (string keys keep insertion
order). -/
def dictInsert : List (String × Intelligence) → String → Intelligence →
    List (String × Intelligence)
  | [], k, v => [(k, v)]
  | p :: rest, k, v => if p.1 == k then (k, v) :: rest else p :: dictInsert rest k v

/-- Property read `dict[key]` on a JS object (`none` is `undefined`). -/
def dictLookup : List (String × Intelligence) → String → Option Intelligence
  | [], _ => none
  | p :: rest, k => if p.1 == k then some p.2 else dictLookup rest k

/-- `resetRunningJob()`: every field cleared. -/
def resetRunningJob : RunningJob := {}

/-- `initRunningJob(intelligences)`: reset, then install the batch, a fresh
job id, the start time, and take the lock. -/
def initRunningJob (now : Nat) (freshJobId : String)
    (intelligences : Option (List Intelligence)) : RunningJob :=
  let job := resetRunningJob
  { job with
      totalIntelligences := intelligences.getD []
      jobId := some freshJobId
      startTime := now
      lockJob := true }

/-- Outcome of the admission phase of `startCollectIntelligencesJob`. -/
inductive StartJobStep where
  | blockedByRunning : StartJobStep
  | admitted (job : RunningJob) : StartJobStep
deriving Repr, BEq

/-- The admission gate at the top of `startCollectIntelligencesJob`: if
`jobId`, `lockJob` or `endingCollectIntelligencesJob` is set the call
returns at once, leaving the running job untouched; otherwise
`initRunningJob` installs a fresh job (the batch is fetched later, so
`initRunningJob` is called with no argument). -/
def startCollectIntelligencesJobAdmission (now : Nat) (freshJobId : String)
    (job : RunningJob) : StartJobStep :=
  if job.jobId.isSome || job.lockJob || job.endingCollectIntelligencesJob then
    .blockedByRunning
  else
    .admitted (initRunningJob now freshJobId none)

/-- The guard of the job-loop tick in `startPollingGetIntelligences`: the
runner is invoked exactly when `!jobId && !lockJob`. -/
def pollingTickStartsJob (job : RunningJob) : Bool :=
  !job.jobId.isSome && !job.lockJob

/-- The per-job timeout handler armed in `startCollectIntelligencesJob`:
sets `jobTimeout`, disarms the handler, and marks every batch item
`TIMEOUT` with reason "collect intelligences timeout", writing each item
into `collectedIntelligencesDict` under its `globalId` and bumping
`collectedIntelligencesNumber` once per item. (The source mutates the
items of `totalIntelligences` in place, so the batch itself now holds the
timed-out items.) -/
def timeoutFire (now : Nat) (job : RunningJob) : RunningJob :=
  let job := { job with jobTimeout := true, jobTimeoutHandler := false }
  let timedOut := job.totalIntelligences.map (fun intelligence =>
    setIntelligenceState now intelligence "TIMEOUT"
      (some (.jsString "collect intelligences timeout")))
  { job with
      totalIntelligences := timedOut
      collectedIntelligencesDict :=
        timedOut.foldl (fun d i => dictInsert d i.globalId i) job.collectedIntelligencesDict
      collectedIntelligencesNumber := job.collectedIntelligencesNumber + timedOut.length }

/-- One settled outcome of the worker's per-item promises
(`Promise.allSettled`): `status` is `"fulfilled"` with a `value` or
`"rejected"` with a `reason`; the payload may or may not carry a
`globalId`. -/
inductive Settled where
  | fulfilled (value : Intelligence) : Settled
  | rejected (reason : Intelligence) : Settled
deriving Repr, BEq

/-- The body of the `results.forEach` in the worker-completion branch:
fulfilled outcomes whose value carries a `globalId` are reconciled as
`FINISHED`, rejected outcomes whose reason carries a `globalId` as
`FAILED` (no reason argument is passed to `setIntelligenceState`), and
any other shape is skipped. -/
def processOneResult (now : Nat) (job : RunningJob) (result : Settled) : RunningJob :=
  match result with
  | .fulfilled value =>
      if value.globalId != "" then
        { job with
            collectedIntelligencesDict :=
              dictInsert job.collectedIntelligencesDict value.globalId
                (setIntelligenceState now value "FINISHED" none)
            collectedIntelligencesNumber := job.collectedIntelligencesNumber + 1 }
      else job
  | .rejected reason =>
      if reason.globalId != "" then
        { job with
            collectedIntelligencesDict :=
              dictInsert job.collectedIntelligencesDict reason.globalId
                (setIntelligenceState now reason "FAILED" none)
            collectedIntelligencesNumber := job.collectedIntelligencesNumber + 1 }
      else job

/-- The worker-completion (`.then`) branch of
`startCollectIntelligencesJob`: if `jobTimeout` is already set it returns
at once without touching the job; otherwise it disarms the timeout timer
and folds `processOneResult` over the settled outcomes. (The subsequent
call to `endCollectIntelligencesJob` is modelled separately.) -/
def workerCompletion (now : Nat) (job : RunningJob) (results : List Settled) : RunningJob :=
  if job.jobTimeout then job
  else
    let job := { job with jobTimeoutHandler := false }
    results.foldl (fun job result => processOneResult now job result) job

/-- The body of the reconciliation loop in `endCollectIntelligencesJob`
for one original batch item: a `globalId` missing from the dictionary is
marked `FAILED` with the timeout-or-not-resolved reason; a dictionary hit
with empty `system.state` becomes `FINISHED` when `dataset` is truthy and
`FAILED` otherwise; a hit with a state is kept as is. -/
def reconcileOne (now : Nat) (dict : List (String × Intelligence))
    (tmp : Intelligence) : Intelligence :=
  match dictLookup dict tmp.globalId with
  | none =>
      setIntelligenceState now tmp "FAILED"
        (some (.jsString "Intelligence failed caused by timeout or you didn't resolve(intelligence) or reject(intelligence) in your producer"))
  | some intelligence =>
      if intelligence.system.state == "" then
        if jsOptTruthy intelligence.dataset then
          setIntelligenceState now intelligence "FINISHED" none
        else
          setIntelligenceState now intelligence "FAILED" none
      else intelligence

/-- The reconciliation loop of `endCollectIntelligencesJob` (`temp = [];
for (...) temp.push(...)`), with `temp` as the accumulator. -/
def endCollectReconcileGo (now : Nat) (dict : List (String × Intelligence)) :
    List Intelligence → List Intelligence → List Intelligence
  | [], temp => temp
  | tmp :: rest, temp => endCollectReconcileGo now dict rest (temp ++ [reconcileOne now dict tmp])

/-- The final ordered list built by `endCollectIntelligencesJob` from
`totalIntelligences` and `collectedIntelligencesDict`. -/
def endCollectReconcile (now : Nat) (dict : List (String × Intelligence))
    (items : List Intelligence) : List Intelligence :=
  endCollectReconcileGo now dict items []

/-- `endCollectIntelligencesJob` up to the dispatch call: the guard
no-ops unless a locked job exists that is not already ending; otherwise
the ending flag is set and the reconciled list replaces
`totalIntelligences` (it is then handed to `sendToSOIAndDIA`). -/
def endCollectIntelligencesJobStep (now : Nat) (job : RunningJob) :
    Option (RunningJob × List Intelligence) :=
  if !job.jobId.isSome || !job.lockJob || job.endingCollectIntelligencesJob then
    none
  else
    let job := { job with endingCollectIntelligencesJob := true }
    let temp := endCollectReconcile now job.collectedIntelligencesDict job.totalIntelligences
    some ({ job with totalIntelligences := temp }, temp)

/-- Modelled from the spec: the helper `joinURL(callbackPath, baseURL)`
lives in `lib/utils`, which is outside the provided sources; the spec
describes the routing key as `lower(method) ":" lower(join(baseURL,
callbackPath))`, so joining is modelled as concatenating the path onto
the base URL. -/
def joinURL (callbackPath baseURL : String) : String :=
  baseURL ++ callbackPath

/-- One routing bucket built by `sendToSOIAndDIA`: the first observed
`soi` descriptor and the bucket's items. -/
structure SoiBucket where
  soi : Soi := {}
  intelligences : List Intelligence := []
deriving Repr, BEq

/-- Adding one item to the `sois` object under its routing key: a new key
creates a bucket holding the item's `soi`; an existing key pushes onto
that bucket's list. -/
def soisAdd (sois : List (String × SoiBucket)) (key : String) (i : Intelligence) :
    List (String × SoiBucket) :=
  if sois.any (fun p => p.1 == key) then
    sois.map (fun p =>
      if p.1 == key then (p.1, { p.2 with intelligences := p.2.intelligences ++ [i] }) else p)
  else sois ++ [(key, { soi := i.soi, intelligences := [i] })]

/-- The grouping loop of `sendToSOIAndDIA`: items missing `soi.baseURL`,
`soi.callback.method` or `soi.callback.path` are skipped; the rest are
bucketed under `lower(method) ++ ":" ++ lower(joinURL(path, baseURL))`. -/
def groupSois (intelligences : List Intelligence) : List (String × SoiBucket) :=
  intelligences.foldl (fun sois i =>
    let baseUrl := i.soi.baseURL
    let method := i.soi.callback.method
    let callbackPath := i.soi.callback.path
    if baseUrl == "" || method == "" || callbackPath == "" then sois
    else
      let url := joinURL callbackPath baseUrl
      let key := jsToLower method ++ ":" ++ jsToLower url
      soisAdd sois key i) []

/-- An outbound request issued by the dispatcher: a POST of results to a
target system (`sendIntelligencesToSOI`) or a PUT of results to the
control plane (`updateIntelligencesAPI`). -/
inductive DispatchRequest where
  | soiPost (baseURL : String) (method : String) (callbackPath : String)
      (apiKey : Option String) (body : List Intelligence) : DispatchRequest
  | controlPut (body : List Intelligence) : DispatchRequest
deriving Repr, BEq

/-- The requests `sendToSOIAndDIA(intelligences)` issues on the
failure-free path, in bucket order: for each bucket, one target-system
POST whose body is the OUTER `intelligences` argument (the source passes
the shadowing-free outer variable, not `sois[key].intelligences`),
carrying the bucket soi's `apiKey` as the security header when truthy,
followed by one control-plane PUT of the bucket's own items. -/
def sendToSOIAndDIARequests (intelligences : List Intelligence) : List DispatchRequest :=
  (groupSois intelligences).foldl (fun acc kb =>
    let soi := kb.2.soi
    let apiKey := if soi.apiKey == "" then none else some soi.apiKey
    acc ++ [DispatchRequest.soiPost soi.baseURL soi.callback.method soi.callback.path
              apiKey intelligences,
            DispatchRequest.controlPut kb.2.intelligences]) []

/-- The fields of the remote producer configuration the watcher inspects
(`none` encodes an absent field under `_.get`). -/
structure ProducerConfig where
  globalId : Option String := none
  type : Option String := none
  systemVersion : Option String := none
  systemState : Option String := none
deriving Repr, BEq

/-- Modelled from the spec: `constants.AGENT_STATE.active` comes from the
constants module outside the provided sources; only `ACTIVE` permits job
execution. -/
def AGENT_STATE_ACTIVE : String := "ACTIVE"

/-- What a watcher tick decides to do after comparing configurations. -/
inductive WatcherAction where
  | noop : WatcherAction
  | startPolling : WatcherAction
  | endPolling : WatcherAction
deriving Repr, BEq

/-- The watcher-visible state of a producer. -/
structure ProducerState where
  currentProducerConfig : Option ProducerConfig := none
  runningJob : RunningJob := {}
deriving Repr, BEq

/-- `_.toUpper` of an optional string (`_.toUpper(undefined) = ""`). -/
def optToUpper : Option String → String
  | none => ""
  | some s => jsToUpper s

/-- The decision logic of `compareProducerConfiguration`: if the remote
`(globalId, system.version)` differs from the adopted snapshot, adopt the
remote config and either start polling (base URL present, remote type
present and equal to the producer's, remote global id present, remote
state `ACTIVE`) or end polling; otherwise change nothing. -/
def compareProducerConfigurationStep (st : ProducerState) (remote : Option ProducerConfig)
    (baseURLPresent : Bool) (selfType : String) : ProducerState × WatcherAction :=
  if remote.bind ProducerConfig.globalId != st.currentProducerConfig.bind ProducerConfig.globalId
      || remote.bind ProducerConfig.systemVersion
          != st.currentProducerConfig.bind ProducerConfig.systemVersion then
    let st := { st with currentProducerConfig := remote }
    if !baseURLPresent
        || (remote.bind ProducerConfig.type).getD "" == ""
        || (remote.bind ProducerConfig.globalId).getD "" == ""
        || optToUpper (remote.bind ProducerConfig.type) != jsToUpper selfType
        || optToUpper (remote.bind ProducerConfig.systemState) != jsToUpper AGENT_STATE_ACTIVE then
      (st, .endPolling)
    else
      (st, .startPolling)
  else
    (st, .noop)

/-- The classified error surfaced through `producerError()`. -/
structure ProducerError where
  error : Bool := false
  status : Option Nat := none
  code : Option String := none
  message : String := ""
deriving Repr, BEq

/-- The shape of an error thrown by the get-config HTTP call: an optional
HTTP status and an optional vendor code. -/
structure HttpErr where
  status : Option Nat := none
  code : Option String := none
deriving Repr, BEq

/-- The catch-block of `getProducerConfiguration` classifying a failed
get-config call into `__producerError`. When the error carries a truthy
`status`, a fresh record `{error, status, code}` is built and its message
chosen by the status/code cascade of the source. When it does not, the
source executes `this.__producerError.message = ...` directly: if a
previous error record exists its message is overwritten in place;
if `__producerError` is `null` this is a `TypeError` (modelled as
`Except.error ()`), so the function throws instead of returning
`undefined`. -/
def handleGetProducerConfigurationError (prev : Option ProducerError)
    (globalId securityKey selfType : String) (err : HttpErr) :
    Except Unit ProducerError :=
  match err.status with
  | some status =>
      let base : ProducerError := { error := true, status := some status, code := err.code }
      if status == 404 then
        .ok { base with
          message := s!"Cannot find any producer by {globalId}. Please check your GLOBAL_ID" }
      else if status == 401 then
        .ok { base with
          message := s!"Please pass correct BITSKY_SECURITY_KEY. {securityKey} is invalid" }
      else if status ≥ 500 then
        .ok { base with message := "Internal server error" }
      else if status == 403 then
        .ok { base with
          message := "The producer you want connect to was already connected by other producer instance. You need to disconnect it before you can connect or change another producer to connect" }
      else if status ≥ 400 && err.code == some "00144000002" then
        .ok { base with message := "Please set PRODUCER_SERIAL_ID, this is required" }
      else if status ≥ 400 && err.code == some "00144000004" then
        .ok { base with
          message := s!"The producer's type you are trying to connect isn't {selfType}, please change Producer Global ID which its type is {selfType}" }
      else if status ≥ 400 then
        .ok { base with
          message := "Please check GLOBAL ID, PRODUCER_SERIAL_ID or BITSKY_SECURITY_KEY, some fileds isn't correct" }
      else
        .ok { base with message := "Internal server error" }
  | none =>
      match prev with
      | some prevErr => .ok { prevErr with message := "Internal server error" }
      | none => .error ()

/-- What a call to the `type` accessor produces. -/
inductive TypeCallResult where
  | value (t : String) : TypeCallResult
  | producer (newType : String) : TypeCallResult
  | thrown : TypeCallResult
deriving Repr, BEq

/-- In JavaScript a primitive string is never an instance of the `String`
wrapper object, so the source's `type instanceof String` test is false
for every string argument. -/
def jsInstanceOfString (_t : String) : Bool := false

/-- Whether a call outcome is a thrown error. -/
def typeCallThrown : TypeCallResult → Bool
  | .thrown => true
  | _ => false

/-- The `type(type)` accessor: a falsy argument (`undefined` or `""`)
returns the current type; then `if (!(type instanceof String) && !type)
throw`; otherwise the type is replaced and the producer returned. -/
def typeAccessor (currentType : String) (arg : Option String) : TypeCallResult :=
  let falsy : Option String → Bool := fun o =>
    match o with
    | none => true
    | some s => s == ""
  if falsy arg then .value currentType
  else
    let t := arg.getD ""
    if !jsInstanceOfString t && falsy (some t) then .thrown
    else .producer t

/-- A JavaScript value passed to `setConfigs`. `obj` covers any
`instanceof Object` argument (its payload is the configs record the
caller supplies). -/
inductive JsArg where
  | undef : JsArg
  | null : JsArg
  | str (s : String) : JsArg
  | num (n : Int) : JsArg
  | bool (b : Bool) : JsArg
  | obj (fields : List (String × JsonVal)) : JsArg
deriving Repr, BEq

/-- `configs instanceof Object`: true exactly for object values
(primitives, `null` and `undefined` are not `Object` instances). -/
def jsArgInstanceOfObject : JsArg → Bool
  | .obj _ => true
  | _ => false

/-- `setConfigs(configs)`: the caller-override snapshot is replaced only
when the argument is an `Object` instance; any other argument leaves the
stored snapshot unchanged and raises nothing. -/
def setConfigs (manuallySetConfigs : JsArg) (configs : JsArg) : JsArg :=
  if jsArgInstanceOfObject configs then configs else manuallySetConfigs

/-- A batch item targeting callback `POST http://a//cb`. -/
def fanoutItemA : Intelligence :=
  { globalId := "i1"
    soi := { baseURL := "http://a/", callback := { method := "POST", path := "/cb" } } }

/-- A batch item targeting callback `POST http://b//cb2`. -/
def fanoutItemB : Intelligence :=
  { globalId := "i2"
    soi := { baseURL := "http://b/", callback := { method := "POST", path := "/cb2" } } }

/-- An intelligence whose `system.producer.endedAt` was never set. -/
def endedAtAbsentItem : Intelligence := { globalId := "i1" }

/-- An intelligence whose `system.producer.endedAt` is already set. -/
def endedAtPresentItem : Intelligence :=
  { globalId := "i2", system := { producerEndedAt := some 500 } }

/-- A running job as `initRunningJob` leaves it (locked, not ending). -/
def sampleLockedJob : RunningJob :=
  { jobId := some "job-cex", startTime := 7, lockJob := true }

/-- A rejection reason carrying a `globalId` but no `failuresReason`. -/
def sampleRejectionReason : Intelligence := { globalId := "g2" }

/-- A two-item batch for exercising the running-job phases. -/
def sampleBatchJob : RunningJob :=
  { jobId := some "job-1", startTime := 3, lockJob := true
    totalIntelligences := [{ globalId := "g1" }, { globalId := "g2" }] }

/-- A remote configuration snapshot. -/
def sampleConfig : ProducerConfig :=
  { globalId := some "g1", type := some "SERVICE", systemVersion := some "v1"
    systemState := some "ACTIVE" }

theorem dictLookup_dictInsert_self (d : List (String × Intelligence)) (k : String)
    (v : Intelligence) : dictLookup (dictInsert d k v) k = some v := by
  induction d with
  | nil => simp [dictInsert, dictLookup]
  | cons a d ih =>
    cases h : (a.1 == k) <;> simp [dictInsert, dictLookup, h, ih]

theorem dictLookup_dictInsert_ne (d : List (String × Intelligence)) (k k' : String)
    (v : Intelligence) (h : (k' == k) = false) :
    dictLookup (dictInsert d k' v) k = dictLookup d k := by
  induction d with
  | nil => simp [dictInsert, dictLookup, h]
  | cons a d ih =>
    cases h2 : (a.1 == k') with
    | true =>
      have ha : a.1 = k' := eq_of_beq h2
      simp [dictInsert, dictLookup, h2, ha, h]
    | false =>
      cases h3 : (a.1 == k) <;> simp [dictInsert, dictLookup, h2, h3, ih]

theorem dictLookup_insertAll_not_mem (L : List Intelligence)
    (d : List (String × Intelligence)) (k : String)
    (h : ∀ v ∈ L, (v.globalId == k) = false) :
    dictLookup (L.foldl (fun d i => dictInsert d i.globalId i) d) k = dictLookup d k := by
  induction L generalizing d with
  | nil => rfl
  | cons a L ih =>
    have step :
        (a :: L).foldl (fun d i => dictInsert d i.globalId i) d
          = L.foldl (fun d i => dictInsert d i.globalId i) (dictInsert d a.globalId a) := rfl
    rw [step, ih _ (fun v hv => h v (List.mem_cons_of_mem _ hv))]
    exact dictLookup_dictInsert_ne _ _ _ _ (h a (List.mem_cons_self _ _))

theorem dictLookup_insertAll_mem (L : List Intelligence)
    (d : List (String × Intelligence)) (k : String)
    (h : ∃ v ∈ L, v.globalId = k) :
    ∃ v, v ∈ L ∧ v.globalId = k ∧
      dictLookup (L.foldl (fun d i => dictInsert d i.globalId i) d) k = some v := by
  induction L generalizing d with
  | nil => simp at h
  | cons a L ih =>
    have step :
        (a :: L).foldl (fun d i => dictInsert d i.globalId i) d
          = L.foldl (fun d i => dictInsert d i.globalId i) (dictInsert d a.globalId a) := rfl
    by_cases hL : ∃ v ∈ L, v.globalId = k
    · obtain ⟨v, hv, hgid, hlook⟩ := ih (dictInsert d a.globalId a) hL
      exact ⟨v, List.mem_cons_of_mem _ hv, hgid, by rw [step]; exact hlook⟩
    · have ha : a.globalId = k := by
        obtain ⟨v, hv, hgid⟩ := h
        rcases List.mem_cons.mp hv with rfl | hv2
        · exact hgid
        · exact absurd ⟨v, hv2, hgid⟩ hL
      refine ⟨a, List.mem_cons_self _ _, ha, ?_⟩
      have hnone : ∀ v ∈ L, (v.globalId == k) = false := by
        intro v hv
        cases hbe : (v.globalId == k) with
        | false => rfl
        | true => exact absurd ⟨v, hv, eq_of_beq hbe⟩ hL
      rw [step, dictLookup_insertAll_not_mem L _ k hnone, ha]
      exact dictLookup_dictInsert_self _ _ _

theorem endCollectReconcileGo_eq (now : Nat) (dict : List (String × Intelligence))
    (items temp : List Intelligence) :
    endCollectReconcileGo now dict items temp = temp ++ items.map (reconcileOne now dict) := by
  induction items generalizing temp with
  | nil => simp [endCollectReconcileGo]
  | cons x xs ih => simp [endCollectReconcileGo, ih]

theorem endCollectReconcile_eq_map (now : Nat) (dict : List (String × Intelligence))
    (items : List Intelligence) :
    endCollectReconcile now dict items = items.map (reconcileOne now dict) := by
  simp [endCollectReconcile, endCollectReconcileGo_eq]

theorem setIntelligenceState_state (now : Nat) (i : Intelligence) (s : String)
    (r : Option JsReason) :
    (setIntelligenceState now i s r).system.state = jsToUpper s := by
  cases r with
  | none => simp only [setIntelligenceState]; split <;> rfl
  | some rr => simp only [setIntelligenceState]; split <;> split <;> rfl

theorem setIntelligenceState_failuresReason_none (now : Nat) (i : Intelligence) (s : String) :
    (setIntelligenceState now i s none).system.failuresReason = i.system.failuresReason := by
  simp only [setIntelligenceState]
  split <;> rfl

theorem setIntelligenceState_failuresReason_truthy (now : Nat) (i : Intelligence) (s : String)
    (r : JsReason) (h : r.truthy = true) :
    (setIntelligenceState now i s (some r)).system.failuresReason
      = some (serializeReason r) := by
  simp only [setIntelligenceState]
  split <;> simp [h]

theorem setIntelligenceState_globalId (now : Nat) (i : Intelligence) (s : String)
    (r : Option JsReason) :
    (setIntelligenceState now i s r).globalId = i.globalId := by
  cases r with
  | none => simp only [setIntelligenceState]; split <;> rfl
  | some rr => simp only [setIntelligenceState]; split <;> split <;> rfl

/-- C1: at most one job is active per Producer at any instant — whenever
the running job has `jobId` set, `lockJob` true, or the ending flag true,
`startCollectIntelligencesJob` returns without initializing or mutating
the running job; the job-loop tick invokes the runner exactly when both
`jobId` and `lockJob` are unset; and the only admission path goes through
`initRunningJob`, which installs a fresh `jobId`, `startTime = now` and
`lockJob = true`. -/
theorem startCollectIntelligencesJob_single_job_gate (now : Nat) (fresh : String)
    (job : RunningJob) :
    ((job.jobId.isSome || job.lockJob || job.endingCollectIntelligencesJob) = true →
      startCollectIntelligencesJobAdmission now fresh job = .blockedByRunning) ∧
    (pollingTickStartsJob job = true ↔ (job.jobId = none ∧ job.lockJob = false)) ∧
    (∀ j, startCollectIntelligencesJobAdmission now fresh job = .admitted j →
      job.jobId = none ∧ job.lockJob = false ∧ job.endingCollectIntelligencesJob = false ∧
      j = initRunningJob now fresh none ∧
      j.jobId = some fresh ∧ j.startTime = now ∧ j.lockJob = true) := by
  refine ⟨?_, ?_, ?_⟩
  · intro h
    simp [startCollectIntelligencesJobAdmission, h]
  · cases hj : job.jobId <;> cases hl : job.lockJob <;>
      simp [pollingTickStartsJob, hj, hl]
  · intro j hj
    by_cases hcond : (job.jobId.isSome || job.lockJob || job.endingCollectIntelligencesJob) = true
    · simp [startCollectIntelligencesJobAdmission, hcond] at hj
    · simp only [startCollectIntelligencesJobAdmission, hcond, if_false, Bool.not_eq_true] at hj
      simp only [Bool.or_eq_true, not_or, Bool.not_eq_true, Option.not_isSome,
        Option.isNone_iff_eq_none] at hcond
      simp only [Bool.false_eq_true, if_false, StartJobStep.admitted.injEq] at hj
      rcases hj with rfl
      exact ⟨hcond.1.1, hcond.1.2, hcond.2, rfl, rfl, rfl, rfl⟩

/-- C3: the reconciliation of `endCollectIntelligencesJob` preserves the
input order and length of `totalIntelligences`; the `i`-th output is
exactly the three-way rule applied to the `i`-th input (missing from the
dictionary: `FAILED` with the timeout-or-not-resolved reason; present
with empty `system.state`: `FINISHED` when `dataset` is truthy, else
`FAILED`; present with a state: kept as is); and afterwards every entry
has a non-empty `system.state`. -/
theorem endCollectIntelligencesJob_reconciliation (now : Nat)
    (dict : List (String × Intelligence)) (items : List Intelligence) :
    (endCollectReconcile now dict items).length = items.length ∧
    (∀ i : Fin items.length,
      (endCollectReconcile now dict items)[i.val]? =
        some (match dictLookup dict (items.get i).globalId with
          | none =>
              setIntelligenceState now (items.get i) "FAILED"
                (some (.jsString "Intelligence failed caused by timeout or you didn't resolve(intelligence) or reject(intelligence) in your producer"))
          | some intelligence =>
              if intelligence.system.state == "" then
                if jsOptTruthy intelligence.dataset then
                  setIntelligenceState now intelligence "FINISHED" none
                else setIntelligenceState now intelligence "FAILED" none
              else intelligence)) ∧
    (∀ x ∈ endCollectReconcile now dict items, (x.system.state == "") = false) := by
  rw [endCollectReconcile_eq_map]
  refine ⟨by simp, ?_, ?_⟩
  · intro i
    rw [List.getElem?_map, List.getElem?_eq_getElem i.isLt]
    rfl
  · intro x hx
    obtain ⟨y, hy, rfl⟩ := List.mem_map.mp hx
    rcases hl : dictLookup dict y.globalId with _ | intelligence
    · simp only [reconcileOne, hl, setIntelligenceState_state]
      decide
    · cases hs : (intelligence.system.state == "") with
      | true =>
        cases hd : jsOptTruthy intelligence.dataset <;>
          simp [reconcileOne, hl, hs, hd, setIntelligenceState_state] <;> decide
      | false => simp [reconcileOne, hl, hs]

/-- C2: once the per-job timeout has fired, `jobTimeout` is set, every
item of `totalIntelligences` is reconciled as `TIMEOUT` with reason
"collect intelligences timeout", a worker completion settling afterwards
performs no reconciliation at all (the job is returned untouched), and
the final reconciled state of every batch item of the job is `TIMEOUT`. -/
theorem jobTimeout_forces_all_timeout (now now2 now3 : Nat) (job : RunningJob)
    (results : List Settled) :
    (timeoutFire now job).jobTimeout = true ∧
    workerCompletion now2 (timeoutFire now job) results = timeoutFire now job ∧
    (∀ x ∈ (timeoutFire now job).totalIntelligences,
      x.system.state = "TIMEOUT" ∧
      x.system.failuresReason = some "collect intelligences timeout") ∧
    (∀ x ∈ endCollectReconcile now3 (timeoutFire now job).collectedIntelligencesDict
        (timeoutFire now job).totalIntelligences,
      x.system.state = "TIMEOUT") := by
  have hTO : (timeoutFire now job).jobTimeout = true := by simp [timeoutFire]
  have hWC : workerCompletion now2 (timeoutFire now job) results = timeoutFire now job := by
    simp [workerCompletion, hTO]
  have htotal : (timeoutFire now job).totalIntelligences
      = job.totalIntelligences.map (fun y =>
          setIntelligenceState now y "TIMEOUT"
            (some (.jsString "collect intelligences timeout"))) := by
    simp [timeoutFire]
  have hstate : ∀ x ∈ (timeoutFire now job).totalIntelligences,
      x.system.state = "TIMEOUT" ∧
      x.system.failuresReason = some "collect intelligences timeout" := by
    intro x hx
    rw [htotal] at hx
    obtain ⟨y, hy, rfl⟩ := List.mem_map.mp hx
    refine ⟨?_, ?_⟩
    · rw [setIntelligenceState_state]; decide
    · rw [setIntelligenceState_failuresReason_truthy _ _ _ _ (by decide)]; rfl
  refine ⟨hTO, hWC, hstate, ?_⟩
  intro x hx
  have hdict : (timeoutFire now job).collectedIntelligencesDict
      = ((timeoutFire now job).totalIntelligences).foldl
          (fun d i => dictInsert d i.globalId i) job.collectedIntelligencesDict := by
    simp [timeoutFire]
  rw [endCollectReconcile_eq_map] at hx
  obtain ⟨y, hy, rfl⟩ := List.mem_map.mp hx
  obtain ⟨v, hvmem, hvgid, hvlook⟩ := dictLookup_insertAll_mem
      ((timeoutFire now job).totalIntelligences) job.collectedIntelligencesDict y.globalId
      ⟨y, hy, rfl⟩
  have hvstate := (hstate v hvmem).1
  simp only [reconcileOne, hdict, hvlook, hvstate]
  rw [if_neg (by decide)]
  exact hvstate

/-- C7: when a watcher tick observes a remote configuration whose
`(globalId, system.version)` matches the locally adopted snapshot,
`compareProducerConfiguration` changes nothing: the snapshot is kept, the
running job is untouched, and the job loop is neither restarted nor
stopped. -/
theorem compareProducerConfiguration_unchanged_noop (st : ProducerState)
    (remote : Option ProducerConfig) (baseURLPresent : Bool) (selfType : String)
    (hg : remote.bind ProducerConfig.globalId
      = st.currentProducerConfig.bind ProducerConfig.globalId)
    (hv : remote.bind ProducerConfig.systemVersion
      = st.currentProducerConfig.bind ProducerConfig.systemVersion) :
    compareProducerConfigurationStep st remote baseURLPresent selfType = (st, .noop) := by
  simp [compareProducerConfigurationStep, hg, hv]

/-- C9: the `type` accessor never throws — an empty argument makes the
call act as the getter (it returns the current type unchanged, refuting
the claim that it throws), a non-empty argument installs the new type and
returns the producer, and a call without argument returns the current
type. -/
theorem typeAccessor_empty_never_throws :
    typeAccessor "SERVICE" (some "") = .value "SERVICE" ∧
    (∀ currentType arg, typeCallThrown (typeAccessor currentType arg) = false) ∧
    (∀ currentType t, (t == "") = false → typeAccessor currentType (some t) = .producer t) ∧
    typeAccessor "SERVICE" none = .value "SERVICE" := by
  refine ⟨rfl, ?_, ?_, rfl⟩
  · intro currentType arg
    cases arg with
    | none => rfl
    | some s =>
      cases h : (s == "") <;> simp [typeAccessor, jsInstanceOfString, typeCallThrown, h]
  · intro currentType t h
    simp [typeAccessor, jsInstanceOfString, h]

/-- C10: `setConfigs` ignores every argument that is not an `Object`
instance (`undefined`, `null`, strings, numbers, booleans): the stored
caller-override snapshot is unchanged and nothing is thrown; an object
argument replaces the snapshot. -/
theorem setConfigs_non_object_noop (cur : JsArg) :
    (∀ v, jsArgInstanceOfObject v = false → setConfigs cur v = cur) ∧
    setConfigs cur .undef = cur ∧
    setConfigs cur .null = cur ∧
    (∀ s, setConfigs cur (.str s) = cur) ∧
    (∀ n, setConfigs cur (.num n) = cur) ∧
    (∀ b, setConfigs cur (.bool b) = cur) ∧
    (∀ fields, setConfigs cur (.obj fields) = .obj fields) := by
  refine ⟨?_, rfl, rfl, fun _ => rfl, fun _ => rfl, fun _ => rfl, fun _ => rfl⟩
  intro v h
  simp [setConfigs, h]

/-- C4: on a two-destination batch the Result Dispatcher forms two
buckets (one item each) and issues exactly two target-system POSTs, one
per bucket, and two control-plane PUTs — but each POST's body is the full
outer `intelligences` list rather than the bucket's own items, so items
of other buckets are posted too, contradicting the claim (the
control-plane PUTs do use the per-bucket lists). -/
theorem sendToSOIAndDIA_posts_full_list_per_bucket :
    (groupSois [fanoutItemA, fanoutItemB]).map (fun kb => kb.2.intelligences)
      = [[fanoutItemA], [fanoutItemB]] ∧
    sendToSOIAndDIARequests [fanoutItemA, fanoutItemB] =
      [DispatchRequest.soiPost "http://a/" "POST" "/cb" none [fanoutItemA, fanoutItemB],
       DispatchRequest.controlPut [fanoutItemA],
       DispatchRequest.soiPost "http://b/" "POST" "/cb2" none [fanoutItemA, fanoutItemB],
       DispatchRequest.controlPut [fanoutItemB]] :=
  ⟨rfl, rfl⟩

/-- C5: `setIntelligenceState` uppercases the state, serializes reasons
as claimed, and leaves the other fields alone — but it writes
`system.producer.endedAt` only when that field is already truthy: on an
intelligence without `endedAt` the field stays unset, refuting the claim
that it is always set to the current timestamp (the source's own comment
"if producer didn't set endedAt, then set to current timestamp" shows the
guard is inverted). -/
theorem setIntelligenceState_endedAt_only_when_present :
    (setIntelligenceState 1000 endedAtAbsentItem "FAILED" none).system.producerEndedAt
      = none ∧
    (setIntelligenceState 1000 endedAtPresentItem "FAILED" none).system.producerEndedAt
      = some 1000 ∧
    (setIntelligenceState 1000 endedAtAbsentItem "failed" none).system.state = "FAILED" ∧
    (setIntelligenceState 1000 endedAtAbsentItem "FAILED"
        (some (.jsError "boom"))).system.failuresReason = some "boom" ∧
    (setIntelligenceState 1000 endedAtAbsentItem "FAILED"
        (some (.jsObject (.obj [("a", .num 1)])))).system.failuresReason
      = some "\x7b\"a\":1\x7d" ∧
    (setIntelligenceState 1000 endedAtAbsentItem "FAILED"
        (some (.jsNumber 42))).system.failuresReason = some "42" ∧
    (setIntelligenceState 1000 endedAtAbsentItem "FAILED" none).globalId
      = endedAtAbsentItem.globalId ∧
    (setIntelligenceState 1000 endedAtAbsentItem "FAILED" none).dataset
      = endedAtAbsentItem.dataset ∧
    (setIntelligenceState 1000 endedAtAbsentItem "FAILED" none).soi
      = endedAtAbsentItem.soi :=
  ⟨rfl, rfl, rfl, rfl, rfl, rfl, rfl, rfl, rfl⟩

/-- C6 counterexample: a rejected outcome whose reason carries globalId
"g2" and no `failuresReason` is written into the dictionary with
`system.state = "FAILED"` but `system.failuresReason` still unset — the
worker-completion branch passes no reason argument to
`setIntelligenceState`, so nothing is recorded from the rejection reason,
refuting the claim. -/
theorem workerCompletion_rejected_reason_not_recorded :
    (dictLookup (workerCompletion 1000 sampleLockedJob
        [Settled.rejected sampleRejectionReason]).collectedIntelligencesDict "g2").map
      (fun i => (i.system.state, i.system.failuresReason)) = some ("FAILED", none) :=
  rfl

/-- C6 (amended): in the worker-completion branch a rejected outcome
whose reason carries a `globalId` is reconciled as `FAILED`:
`collectedByGlobalId[globalId]` receives the reason object itself with
`system.state = "FAILED"` and the collected counter is bumped, while
`system.failuresReason` is left unchanged (not set from the rejection
reason, since the source passes no reason argument). -/
theorem processOneResult_rejected_failed (now : Nat) (job : RunningJob) (r : Intelligence)
    (h : (r.globalId == "") = false) :
    (processOneResult now job (.rejected r)).collectedIntelligencesDict
      = dictInsert job.collectedIntelligencesDict r.globalId
          (setIntelligenceState now r "FAILED" none) ∧
    dictLookup (processOneResult now job (.rejected r)).collectedIntelligencesDict r.globalId
      = some (setIntelligenceState now r "FAILED" none) ∧
    (setIntelligenceState now r "FAILED" none).system.state = "FAILED" ∧
    (setIntelligenceState now r "FAILED" none).system.failuresReason
      = r.system.failuresReason ∧
    (processOneResult now job (.rejected r)).collectedIntelligencesNumber
      = job.collectedIntelligencesNumber + 1 := by
  have hb : (r.globalId != "") = true := by rw [bne, h]; rfl
  refine ⟨?_, ?_, ?_, ?_, ?_⟩
  · simp [processOneResult, hb]
  · simp [processOneResult, hb, dictLookup_dictInsert_self]
  · rw [setIntelligenceState_state]; decide
  · rw [setIntelligenceState_failuresReason_none]
  · simp [processOneResult, hb]

/-- C8: classification of failing get-config calls — status 404, 401,
403 and 5xx produce the messages the claim states, in a fresh
`producerError` record; but an error with no `status` field is handled by
assigning `this.__producerError.message` directly, which only works when
a previous error record exists: with `__producerError` still `null` that
assignment is a `TypeError` (modelled as `Except.error ()`), so the call
throws instead of returning `undefined`, refuting that part of the claim
(the enclosing watcher tick survives because
`compareProducerConfiguration` catches everything). -/
theorem getProducerConfiguration_error_classification :
    handleGetProducerConfigurationError none "gid-1" "key-1" "SERVICE"
        { status := none, code := none } = .error () ∧
    handleGetProducerConfigurationError none "gid-1" "key-1" "SERVICE"
        { status := some 404, code := none }
      = .ok { error := true, status := some 404, code := none,
              message := "Cannot find any producer by gid-1. Please check your GLOBAL_ID" } ∧
    handleGetProducerConfigurationError none "gid-1" "key-1" "SERVICE"
        { status := some 401, code := none }
      = .ok { error := true, status := some 401, code := none,
              message := "Please pass correct BITSKY_SECURITY_KEY. key-1 is invalid" } ∧
    handleGetProducerConfigurationError none "gid-1" "key-1" "SERVICE"
        { status := some 403, code := none }
      = .ok { error := true, status := some 403, code := none,
              message := "The producer you want connect to was already connected by other producer instance. You need to disconnect it before you can connect or change another producer to connect" } ∧
    handleGetProducerConfigurationError none "gid-1" "key-1" "SERVICE"
        { status := some 500, code := none }
      = .ok { error := true, status := some 500, code := none,
              message := "Internal server error" } ∧
    handleGetProducerConfigurationError
        (some { error := true, status := some 500, code := none, message := "stale" })
        "gid-1" "key-1" "SERVICE" { status := none, code := none }
      = .ok { error := true, status := some 500, code := none,
              message := "Internal server error" } :=
  ⟨rfl, rfl, rfl, rfl, rfl, rfl⟩

/-- C1 witness: the gate blocks when `lockJob` is held, and an admitted
job carries the fresh id, the start time and the lock. -/
theorem startCollectIntelligencesJob_single_job_gate_witness :
    startCollectIntelligencesJobAdmission 5 "job-1" { lockJob := true }
      = .blockedByRunning ∧
    (initRunningJob 5 "job-1" none).jobId = some "job-1" ∧
    (initRunningJob 5 "job-1" none).startTime = 5 ∧
    (initRunningJob 5 "job-1" none).lockJob = true := by
  constructor
  · exact (startCollectIntelligencesJob_single_job_gate 5 "job-1" { lockJob := true }).1 rfl
  · have h := (startCollectIntelligencesJob_single_job_gate 5 "job-1" {}).2.2
      (initRunningJob 5 "job-1" none) rfl
    exact ⟨h.2.2.2.2.1, h.2.2.2.2.2.1, h.2.2.2.2.2.2⟩

/-- C2 witness: on a concrete two-item batch, after the timeout fires the
flag is set, a late worker completion changes nothing, the first batch
item is `TIMEOUT` with the timeout reason, and its reconciled entry is
`TIMEOUT`. -/
theorem jobTimeout_forces_all_timeout_witness :
    (timeoutFire 50 sampleBatchJob).jobTimeout = true ∧
    workerCompletion 60 (timeoutFire 50 sampleBatchJob)
        [Settled.fulfilled { globalId := "g1" }] = timeoutFire 50 sampleBatchJob ∧
    ((setIntelligenceState 50 { globalId := "g1" } "TIMEOUT"
        (some (.jsString "collect intelligences timeout"))).system.state = "TIMEOUT" ∧
      (setIntelligenceState 50 { globalId := "g1" } "TIMEOUT"
        (some (.jsString "collect intelligences timeout"))).system.failuresReason
        = some "collect intelligences timeout") ∧
    (reconcileOne 70 (timeoutFire 50 sampleBatchJob).collectedIntelligencesDict
        (setIntelligenceState 50 { globalId := "g1" } "TIMEOUT"
          (some (.jsString "collect intelligences timeout")))).system.state = "TIMEOUT" := by
  have h := jobTimeout_forces_all_timeout 50 60 70 sampleBatchJob
      [Settled.fulfilled { globalId := "g1" }]
  have hmem : setIntelligenceState 50 { globalId := "g1" } "TIMEOUT"
      (some (.jsString "collect intelligences timeout"))
        ∈ (timeoutFire 50 sampleBatchJob).totalIntelligences := by
    rw [show (timeoutFire 50 sampleBatchJob).totalIntelligences
        = [setIntelligenceState 50 { globalId := "g1" } "TIMEOUT"
            (some (.jsString "collect intelligences timeout")),
           setIntelligenceState 50 { globalId := "g2" } "TIMEOUT"
            (some (.jsString "collect intelligences timeout"))] from rfl]
    exact List.mem_cons_self _ _
  refine ⟨h.1, h.2.1, h.2.2.1 _ hmem, ?_⟩
  refine h.2.2.2 _ ?_
  rw [endCollectReconcile_eq_map]
  exact List.mem_map_of_mem _ hmem

/-- C3 witness: a singleton batch whose item is missing from the
dictionary is reconciled, in place, to `FAILED` with the
timeout-or-not-resolved reason, and ends with a non-empty state. -/
theorem endCollectIntelligencesJob_reconciliation_witness :
    (endCollectReconcile 9 [] [{ globalId := "gX" }]).length = 1 ∧
    (endCollectReconcile 9 [] [{ globalId := "gX" }])[0]? =
      some (setIntelligenceState 9 { globalId := "gX" } "FAILED"
        (some (.jsString "Intelligence failed caused by timeout or you didn't resolve(intelligence) or reject(intelligence) in your producer"))) ∧
    ((setIntelligenceState 9 { globalId := "gX" } "FAILED"
        (some (.jsString "Intelligence failed caused by timeout or you didn't resolve(intelligence) or reject(intelligence) in your producer"))).system.state
      == "") = false := by
  have h := endCollectIntelligencesJob_reconciliation 9 [] [{ globalId := "gX" }]
  refine ⟨h.1, h.2.1 ⟨0, by simp⟩, ?_⟩
  refine h.2.2 _ ?_
  rw [endCollectReconcile_eq_map]
  exact List.mem_map_of_mem _ (List.mem_cons_self _ _)

/-- C6 witness for the amended claim, at the concrete rejection. -/
theorem processOneResult_rejected_failed_witness :
    dictLookup (processOneResult 1000 sampleLockedJob
        (.rejected sampleRejectionReason)).collectedIntelligencesDict "g2"
      = some (setIntelligenceState 1000 sampleRejectionReason "FAILED" none) ∧
    (setIntelligenceState 1000 sampleRejectionReason "FAILED" none).system.failuresReason
      = sampleRejectionReason.system.failuresReason := by
  have h := processOneResult_rejected_failed 1000 sampleLockedJob sampleRejectionReason
      (by decide)
  exact ⟨h.2.1, h.2.2.2.1⟩

/-- C7 witness: a tick observing the very snapshot already adopted leaves
the state unchanged and takes no action. -/
theorem compareProducerConfiguration_unchanged_noop_witness :
    compareProducerConfigurationStep
        { currentProducerConfig := some sampleConfig } (some sampleConfig) true "SERVICE"
      = ({ currentProducerConfig := some sampleConfig }, .noop) :=
  compareProducerConfiguration_unchanged_noop
    { currentProducerConfig := some sampleConfig } (some sampleConfig) true "SERVICE" rfl rfl

/-- C9 witness: a non-empty argument installs the new type; the empty
argument does not throw. -/
theorem typeAccessor_empty_never_throws_witness :
    typeAccessor "SERVICE" (some "HTTP") = .producer "HTTP" ∧
    typeCallThrown (typeAccessor "SERVICE" (some "")) = false :=
  ⟨typeAccessor_empty_never_throws.2.2.1 "SERVICE" "HTTP" (by decide),
   typeAccessor_empty_never_throws.2.1 "SERVICE" (some "")⟩

/-- C10 witness: a string argument is ignored; an object argument
replaces the snapshot. -/
theorem setConfigs_non_object_noop_witness :
    setConfigs (.obj []) (.str "nope") = .obj [] ∧
    setConfigs (.obj []) (.obj [("BITSKY_BASE_URL", .str "http://x/")])
      = .obj [("BITSKY_BASE_URL", .str "http://x/")] :=
  ⟨(setConfigs_non_object_noop (.obj [])).1 (.str "nope") rfl,
   (setConfigs_non_object_noop (.obj [])).2.2.2.2.2.2 [("BITSKY_BASE_URL", .str "http://x/")]⟩

end BitSpider.Producer
